import Mathlib

/-!
Verification of the publication-parser core (`parsepapers.py`, `read_input.py`)
against its natural-language specification.

The Python source is shallowly embedded: pure string processing becomes Lean
functions over `List Char`; Python runtime exceptions become `Except PyErr`;
Python values that can have several runtime types (the `citation` field of an
`Entry` is a `list` for one-line entries and a `str` otherwise) are modelled by
an explicit `PyVal` type; the JSON payloads handled by the registry-client
functions are modelled by a `Json` type, and the HTTP transport (an external
collaborator in the spec) is modelled by the `HttpResponse` the transport hands
back to the code under verification.

The regular expressions used by `find_id` and `id_from_url` are embedded via a
small backtracking matcher (`mat` / `reSearch`) that reproduces the semantics
of Python `re.search` for the constructs those patterns use: literals, the
wildcard `.`, character classes, alternation (leftmost alternative first),
greedy `?`, greedy counted repetition of a character class (`+`, `{m}`,
`{m,n}`), a single capturing group, and the negative lookbehind
`(?<![\.,;])`.  `re.search` semantics: try each start offset left to right and
return the first (backtracking-priority) match found; repetition of a
character class is matched longest first.  Character classes are the ASCII
readings of `\d`, `\w`, `\S` (the inputs of this program are ASCII citation
strings).
-/

namespace PubParser

/-- Python runtime exceptions that the embedded code can raise. -/
inductive PyErr where
  | typeError
  | keyError
  | indexError
  | valueError
  | zeroDivisionError
  | attributeError
  | jsonError
deriving DecidableEq

/-- Python `\s` on ASCII text: space, tab, newline, carriage return,
vertical tab, form feed. -/
def isPySpace (c : Char) : Bool :=
  c == ' ' || c == '\t' || c == '\n' || c == '\r' || c == '\x0b' || c == '\x0c'

/-- The three punctuation characters excluded by the negative lookbehind
`(?<![\.,;])` of the DOI pattern. -/
def isPunctStop (c : Char) : Bool :=
  c == '.' || c == ',' || c == ';'

/-- Character classes occurring in the source's regular expressions. -/
inductive CCls where
  | digit      -- \d
  | word       -- \w
  | nonspace   -- \S
  | lower      -- [a-z]
  | digitDash  -- [\d\-]
  | wordDash   -- [\w\-]
  | digitDot   -- [\d.]

def CCls.mem : CCls → Char → Bool
  | .digit, c => c.isDigit
  | .word, c => c.isAlphanum || c == '_'
  | .nonspace, c => !(isPySpace c)
  | .lower, c => 'a' ≤ c && c ≤ 'z'
  | .digitDash, c => c.isDigit || c == '-'
  | .wordDash, c => c.isAlphanum || c == '_' || c == '-'
  | .digitDot, c => c.isDigit || c == '.'

/-- Regular-expression abstract syntax: exactly the constructs used by the
patterns in `find_id` and `id_from_url`. -/
inductive RE where
  | lit (s : List Char)                     -- literal characters
  | anyc                                    -- `.` (the source leaves some dots unescaped)
  | opt (a : RE)                            -- greedy `a?`
  | alt (a b : RE)                          -- `a|b`, left alternative preferred
  | seq (a b : RE)
  | rep (k : CCls) (lo : Nat) (hi : Option Nat)  -- greedy `k{lo,hi}` / `k+` (hi = none)
  | grp (a : RE)                            -- the single capturing group
  | nlbPunct                                -- `(?<![\.,;])`

/-- Literal regex from a string. -/
def L (s : String) : RE := .lit s.data

/-- One backtracking alternative produced by the matcher: characters consumed,
remaining input, last character consumed so far (for the lookbehind), and the
capture of the group, if the group participated. -/
structure MRes where
  consumed : List Char
  rest : List Char
  prevc : Option Char
  cap : Option (List Char)

/-- Last element of `l`, or `prev` if `l` is empty: the character the
lookbehind would inspect after consuming `l`. -/
def lastChar (prev : Option Char) (l : List Char) : Option Char :=
  match l.getLast? with
  | some c => some c
  | none => prev

/-- First capture wins (the patterns have a single group, so at most one side
is `some`). -/
def capOr (a b : Option (List Char)) : Option (List Char) :=
  match a with
  | some x => some x
  | none => b

/-- Backtracking alternatives of a greedy class repetition, longest first:
`n` is the longest length still to be offered, every length down to `lo` is
offered.  All offered prefixes lie inside the maximal class run of `l`
(ensured by the caller `mat`). -/
def repResults (l : List Char) (prev : Option Char) (lo : Nat) : Nat → List MRes
  | 0 => if lo = 0 then [⟨[], l, prev, none⟩] else []
  | n + 1 =>
      (if lo ≤ n + 1 then
        [⟨l.take (n + 1), l.drop (n + 1), lastChar prev (l.take (n + 1)), none⟩]
      else []) ++ repResults l prev lo n

/-- All matches of `r` at the start of `l`, in backtracking priority order
(Python's order: left alternative first, greedy quantifiers longest first).
`prev` is the character immediately preceding `l` in the haystack. -/
def mat : RE → Option Char → List Char → List MRes
  | .lit s, prev, l =>
      if s.isPrefixOf l then [⟨s, l.drop s.length, lastChar prev s, none⟩] else []
  | .anyc, _, [] => []
  | .anyc, _, c :: rest => [⟨[c], rest, some c, none⟩]
  | .opt a, prev, l => mat a prev l ++ [⟨[], l, prev, none⟩]
  | .alt a b, prev, l => mat a prev l ++ mat b prev l
  | .seq a b, prev, l =>
      (mat a prev l).flatMap (fun ra =>
        (mat b ra.prevc ra.rest).map (fun rb =>
          ⟨ra.consumed ++ rb.consumed, rb.rest, rb.prevc, capOr ra.cap rb.cap⟩))
  | .rep k lo hi, prev, l =>
      let run := (l.takeWhile k.mem).length
      repResults l prev lo (match hi with | some h => min h run | none => run)
  | .grp a, prev, l =>
      (mat a prev l).map (fun r => ⟨r.consumed, r.rest, r.prevc, some r.consumed⟩)
  | .nlbPunct, prev, l =>
      match prev with
      | some c => if isPunctStop c then [] else [⟨[], l, prev, none⟩]
      | none => [⟨[], l, prev, none⟩]

/-- `re.search`: try offsets left to right, return the group-1 capture of the
first match (Python's `m.group(1)`; `none` both when there is no match and
when a match exists whose group did not participate, which cannot happen for
the source's patterns). -/
def reSearchAux (r : RE) : Option Char → List Char → Option (List Char)
  | prev, [] => ((mat r prev []).head?).bind (fun res => res.cap)
  | prev, c :: rest =>
      match (mat r prev (c :: rest)).head? with
      | some res => res.cap
      | none => reSearchAux r (some c) rest

def reSearch (r : RE) (s : List Char) : Option (List Char) :=
  reSearchAux r none s

/-! ### The identifier patterns of `find_id` (parsepapers.py lines 34-38)

    "pmid":  PMID: ?(\d+)
    "doi":   (?:doi: ?|doi.org/)(10\.[\d.]+/\S+)(?<![\.,;])
    "pmcid": PMCID: ?(PMC\d+)

Note that the DOI marker alternatives are lower-case and `re.search` is
case-sensitive (no `re.IGNORECASE` is passed), and that the dot of `doi.org`
is unescaped, so it is the wildcard. -/

def pmidRE : RE :=
  .seq (L ("PMID:")) (.seq (.opt (L (" "))) (.grp (.rep .digit 1 none)))

def pmcidRE : RE :=
  .seq (L ("PMCID:")) (.seq (.opt (L (" "))) (.grp (.seq (L ("PMC")) (.rep .digit 1 none))))

def doiRE : RE :=
  .seq (.alt (.seq (L ("doi:")) (.opt (L (" ")))) (.seq (L ("doi")) (.seq .anyc (L ("org/")))))
    (.seq
      (.grp (.seq (L ("10.")) (.seq (.rep .digitDot 1 none) (.seq (L ("/")) (.rep .nonspace 1 none)))))
      .nlbPunct)

/-- A Python runtime value, as far as this program needs to distinguish them:
the `citation` field of an `Entry` is a `list` of strings for one-line entries
and a `str` for multi-line entries, and `None` stands for absent fields. -/
inductive PyVal where
  | none
  | str (s : String)
  | list (xs : List PyVal)
  | tuple (xs : List PyVal)

/-- The identifier kinds iterated by `get_identifiers` (`"doi"`, `"pmid"`,
`"pmcid"`); `find_id` looks its pattern up by this kind (the source's
`patterns[idtype.lower()]`). -/
inductive IdType where
  | pmid
  | doi
  | pmcid

def idPattern : IdType → RE
  | .pmid => pmidRE
  | .doi => doiRE
  | .pmcid => pmcidRE

/-- `find_id(citation_text, idtype)` (parsepapers.py lines 24-42):
`re.search` of the kind's pattern over the citation text, returning
`m.group(1)` or `None`.  Python's `re.search` raises `TypeError` when its
second argument is not a string (this happens for the `list`-valued citation
of a one-line entry and for `None`). -/
def find_id (citation_text : PyVal) (idtype : IdType) : Except PyErr (Option String) :=
  match citation_text with
  | .str s => .ok ((reSearch (idPattern idtype) s.data).map (fun l => String.mk l))
  | _ => .error .typeError

/-! ### `id_from_url` (parsepapers.py lines 45-88)

The publisher-specific URL patterns, embedded one for one.  Unescaped dots in
the source patterns (for example `doi.org`, `direct.mit.edu`, `sagepub\.com`'s
`direct.mit` neighbours) are embedded as the wildcard `anyc`, exactly as
`re` reads them. -/

def doiUrlREs : List RE :=
  [ -- biorxiv\.org/content/(10\.\d{4,6}/\d{6})
    .seq (L ("biorxiv.org/content/"))
      (.grp (.seq (L ("10.")) (.seq (.rep .digit 4 (some 6)) (.seq (L ("/")) (.rep .digit 6 (some 6)))))),
    -- biorxiv\.org/content/(10\.\d{4,6}/\d{4}\.\d{2}\.\d{2}\.\d{6})
    .seq (L ("biorxiv.org/content/"))
      (.grp (.seq (L ("10.")) (.seq (.rep .digit 4 (some 6)) (.seq (L ("/"))
        (.seq (.rep .digit 4 (some 4)) (.seq (L (".")) (.seq (.rep .digit 2 (some 2))
          (.seq (L (".")) (.seq (.rep .digit 2 (some 2)) (.seq (L (".")) (.rep .digit 6 (some 6)))))))))))),
    -- medrxiv\.org/content/(10\.\d{4,6}/\d{4}\.\d{2}\.\d{2}\.\d{8})
    .seq (L ("medrxiv.org/content/"))
      (.grp (.seq (L ("10.")) (.seq (.rep .digit 4 (some 6)) (.seq (L ("/"))
        (.seq (.rep .digit 4 (some 4)) (.seq (L (".")) (.seq (.rep .digit 2 (some 2))
          (.seq (L (".")) (.seq (.rep .digit 2 (some 2)) (.seq (L (".")) (.rep .digit 8 (some 8)))))))))))),
    -- link\.springer\.com/(?:content|article)(?:/pdf)?/(10\.\d+/s[\d\-]+)
    .seq (L ("link.springer.com/"))
      (.seq (.alt (L ("content")) (L ("article"))) (.seq (.opt (L ("/pdf"))) (.seq (L ("/"))
        (.grp (.seq (L ("10.")) (.seq (.rep .digit 1 none) (.seq (L ("/s")) (.rep .digitDash 1 none)))))))),
    -- onlinelibrary\.wiley\.com/doi(?:/e?pdf|/epub|/full)?/(10\.\d+/[a-z]+\.\d+)
    .seq (L ("onlinelibrary.wiley.com/doi"))
      (.seq (.opt (.alt (.seq (L ("/")) (.seq (.opt (L ("e"))) (L ("pdf")))) (.alt (L ("/epub")) (L ("/full")))))
        (.seq (L ("/")) (.grp (.seq (L ("10.")) (.seq (.rep .digit 1 none)
          (.seq (L ("/")) (.seq (.rep .lower 1 none) (.seq (L (".")) (.rep .digit 1 none))))))))),
    -- embopress\.org/doi(?:/e?pdf|/epub|/full)?/(10\.\d+/[a-z]+\.\d+)
    .seq (L ("embopress.org/doi"))
      (.seq (.opt (.alt (.seq (L ("/")) (.seq (.opt (L ("e"))) (L ("pdf")))) (.alt (L ("/epub")) (L ("/full")))))
        (.seq (L ("/")) (.grp (.seq (L ("10.")) (.seq (.rep .digit 1 none)
          (.seq (L ("/")) (.seq (.rep .lower 1 none) (.seq (L (".")) (.rep .digit 1 none))))))))),
    -- science\.org/doi(?:/e?pdf|/epub|/full)?/(10\.\d+/[a-z]+\.\w+)
    .seq (L ("science.org/doi"))
      (.seq (.opt (.alt (.seq (L ("/")) (.seq (.opt (L ("e"))) (L ("pdf")))) (.alt (L ("/epub")) (L ("/full")))))
        (.seq (L ("/")) (.grp (.seq (L ("10.")) (.seq (.rep .digit 1 none)
          (.seq (L ("/")) (.seq (.rep .lower 1 none) (.seq (L (".")) (.rep .word 1 none))))))))),
    -- sagepub\.com/doi(?:/e?pdf|/epub|/full)?/(10\.\d+/\d+)
    .seq (L ("sagepub.com/doi"))
      (.seq (.opt (.alt (.seq (L ("/")) (.seq (.opt (L ("e"))) (L ("pdf")))) (.alt (L ("/epub")) (L ("/full")))))
        (.seq (L ("/")) (.grp (.seq (L ("10.")) (.seq (.rep .digit 1 none) (.seq (L ("/")) (.rep .digit 1 none))))))),
    -- academic\.oup\.com/\w+/[\w\-]+/doi/(10\.\d+/\w+/\w+)
    .seq (L ("academic.oup.com/"))
      (.seq (.rep .word 1 none) (.seq (L ("/")) (.seq (.rep .wordDash 1 none) (.seq (L ("/doi/"))
        (.grp (.seq (L ("10.")) (.seq (.rep .digit 1 none) (.seq (L ("/"))
          (.seq (.rep .word 1 none) (.seq (L ("/")) (.rep .word 1 none))))))))))),
    -- direct.mit.edu/\w+/[\w\-]+/doi/(10\.\d+/\w+/)   (the dots of direct.mit.edu are unescaped)
    .seq (L ("direct")) (.seq .anyc (.seq (L ("mit")) (.seq .anyc (.seq (L ("edu/"))
      (.seq (.rep .word 1 none) (.seq (L ("/")) (.seq (.rep .wordDash 1 none) (.seq (L ("/doi/"))
        (.grp (.seq (L ("10.")) (.seq (.rep .digit 1 none) (.seq (L ("/"))
          (.seq (.rep .word 1 none) (L ("/"))))))))))))))),
    -- ahajournals\.org/doi(?:/e?pdf|/epub|/full)?/(10\.\d+/\w+\.\d+\.\d+)
    .seq (L ("ahajournals.org/doi"))
      (.seq (.opt (.alt (.seq (L ("/")) (.seq (.opt (L ("e"))) (L ("pdf")))) (.alt (L ("/epub")) (L ("/full")))))
        (.seq (L ("/")) (.grp (.seq (L ("10.")) (.seq (.rep .digit 1 none) (.seq (L ("/"))
          (.seq (.rep .word 1 none) (.seq (L (".")) (.seq (.rep .digit 1 none)
            (.seq (L (".")) (.rep .digit 1 none))))))))))),
    -- frontiersin\.org/articles/(10\.\d+/\w+\.\d+\.\d+)
    .seq (L ("frontiersin.org/articles/"))
      (.grp (.seq (L ("10.")) (.seq (.rep .digit 1 none) (.seq (L ("/"))
        (.seq (.rep .word 1 none) (.seq (L (".")) (.seq (.rep .digit 1 none)
          (.seq (L (".")) (.rep .digit 1 none))))))))),
    -- pubs\.acs\.org/doi/(10\.\d+/\w+\.\w+(?:\.\w+)?)
    .seq (L ("pubs.acs.org/doi/"))
      (.grp (.seq (L ("10.")) (.seq (.rep .digit 1 none) (.seq (L ("/"))
        (.seq (.rep .word 1 none) (.seq (L (".")) (.seq (.rep .word 1 none)
          (.opt (.seq (L (".")) (.rep .word 1 none))))))))))]

def pmcidUrlREs : List RE :=
  [.seq (L ("ncbi.nlm.nih.gov/pmc/articles/PMC")) (.grp (.rep .digit 1 none))]

def pmidUrlREs : List RE :=
  [.seq (L ("pubmed.ncbi.nlm.nih.gov/")) (.grp (.rep .digit 1 none))]

def urlPatterns : IdType → List RE
  | .doi => doiUrlREs
  | .pmcid => pmcidUrlREs
  | .pmid => pmidUrlREs

/-- The `for pat in patterns[...]` loop of `id_from_url`: first pattern with a
match wins; `None` (implicitly) if none matches. -/
def firstUrlMatch (pats : List RE) (l : List Char) : Option String :=
  match pats with
  | [] => none
  | p :: rest =>
      match reSearch p l with
      | some c => some (String.mk c)
      | none => firstUrlMatch rest l

/-- `id_from_url(s, idtype)` (parsepapers.py lines 45-88).  `s` is the `url`
field of an entry, which can be `None`; `re.search(pat, None)` raises
`TypeError`. -/
def id_from_url (s : Option String) (idtype : IdType) : Except PyErr (Option String) :=
  match s with
  | some u => .ok (firstUrlMatch (urlPatterns idtype) u.data)
  | none => .error .typeError

/-! ### Entries and identifier extraction -/

/-- A parsed input entry (`read_input.py` line 9, the `Entry` namedtuple with
defaults `url=None`, `comment=None`).  The `citation` field is a `PyVal`
because `process_buffer` stores a list of strings in it for one-line entries
and a plain string otherwise. -/
structure Entry where
  citation : PyVal
  url : Option String
  comment : Option String

/-- The identifier dictionary produced by `get_identifiers`, keys `"doi"`,
`"pmid"`, `"pmcid"`. -/
structure Identifiers where
  doi : Option String
  pmid : Option String
  pmcid : Option String

/-- One round of the `for id_ in ("doi", "pmid", "pmcid")` loop of
`get_identifiers`: citation text first, URL patterns only as fallback. -/
def get_one_id (e : Entry) (k : IdType) : Except PyErr (Option String) := do
  let v ← find_id e.citation k
  match v with
  | some s => pure (some s)
  | none => id_from_url e.url k

/-- `get_identifiers(entry)` (parsepapers.py lines 90-99). -/
def get_identifiers (e : Entry) : Except PyErr Identifiers := do
  let doi ← get_one_id e .doi
  let pmid ← get_one_id e .pmid
  let pmcid ← get_one_id e .pmcid
  pure ⟨doi, pmid, pmcid⟩

/-! ### The resolution orchestrator (parsepapers.py lines 299-313) -/

/-- The registry call the orchestrator's `if`/`elif` chain performs for one
entry; the payload records the exact Python arguments passed. -/
inductive RegistryCall where
  | ctxp (id_ : String) (db : String)      -- query_pubmed_ctxp(throttled_session, id, db)
  | doiOrg (doi : String)                  -- query_doi_org(session, doi, useragent)
  | bibliographic (item : Entry)           -- query_crossref_bibliographic(session, item, email)

/-- The branch selection of the `__main__` loop: `pmid`, else `pmcid`, else
`doi`, else the bibliographic search — which is passed `item`, the whole
entry, as its `citation` argument. -/
def resolve_call (ids : Identifiers) (item : Entry) : RegistryCall :=
  match ids.pmid with
  | some pmid => .ctxp pmid ("pubmed")
  | none =>
      match ids.pmcid with
      | some pmcid => .ctxp pmcid ("pmc")
      | none =>
          match ids.doi with
          | some doi => .doiOrg doi
          | none => .bibliographic item

/-- The Python value of an `Entry` namedtuple (a tuple of its three fields),
as it would be serialized when passed where a plain value is expected. -/
def pyOfOptStr (s : Option String) : PyVal :=
  match s with
  | some t => .str t
  | none => .none

def pyOfEntry (e : Entry) : PyVal :=
  .tuple [e.citation, pyOfOptStr e.url, pyOfOptStr e.comment]

/-- The request payload built by `query_crossref_bibliographic`
(parsepapers.py lines 222-226): `mailto`, `query.bibliographic` (the
`citation` argument, verbatim), and `rows: 3`. -/
structure BibPayload where
  mailto : String
  query_bibliographic : PyVal
  rows : Nat

def bib_query_payload (citation : PyVal) (email : String) : BibPayload :=
  ⟨email, citation, 3⟩

/-! ### JSON values and the registry-client functions -/

/-- The JSON payloads the registry-client functions process. -/
inductive Json where
  | null
  | bool (b : Bool)
  | num (q : ℚ)
  | str (s : String)
  | arr (xs : List Json)
  | obj (kvs : List (String × Json))

/-- First-occurrence association lookup (Python dict keys are unique). -/
def jlookup (kvs : List (String × Json)) (k : String) : Option Json :=
  match kvs with
  | [] => none
  | (k2, v) :: rest => if k2 = k then some v else jlookup rest k

/-- Python `x.get(k)`: `None` for a missing key, `AttributeError` when `x` is
not a dict (in particular when `x` is `None`). -/
def jget (j : Json) (k : String) : Except PyErr (Option Json) :=
  match j with
  | .obj kvs => .ok (jlookup kvs k)
  | _ => .error .attributeError

/-- Python `x[k]` for a string key: `KeyError` for a missing key, `TypeError`
when `x` is not a dict. -/
def jbracket (j : Json) (k : String) : Except PyErr Json :=
  match j with
  | .obj kvs =>
      match jlookup kvs k with
      | some v => .ok v
      | none => .error .keyError
  | _ => .error .typeError

/-- Python `x[0]` on an optional value: `TypeError` on `None` and on
non-subscriptable values, `IndexError` on an empty list, the first element of
a list, the first character of a string, `KeyError` on a dict (whose keys here
are strings, never `0`). -/
def subscript_zero (v : Option Json) : Except PyErr Json :=
  match v with
  | some (.arr (x :: _)) => .ok x
  | some (.arr []) => .error .indexError
  | some (.str s) =>
      match s.data with
      | c :: _ => .ok (.str (String.mk [c]))
      | [] => .error .indexError
  | some (.obj _) => .error .keyError
  | some _ => .error .typeError
  | none => .error .typeError

/-- What the HTTP transport (an external collaborator) hands back to the code
under verification: the success flag `r.ok` and the parsed body; `body = none`
means the body is not JSON, so `r.json()` raises. -/
structure HttpResponse where
  ok : Bool
  body : Option Json

def response_json (r : HttpResponse) : Except PyErr Json :=
  match r.body with
  | some j => .ok j
  | none => .error .jsonError

/-- `query_pubmed_ctxp(session, id_, db)` (parsepapers.py lines 102-122),
response processing: `pprint(r.json())` parses the body unconditionally, then
the body is returned if `r.ok`, `None` (implicit) otherwise. -/
def query_pubmed_ctxp (r : HttpResponse) : Except PyErr (Option Json) := do
  let j ← response_json r
  if r.ok then pure (some j) else pure none

/-- Python `==` between a value and a string: only equal strings compare
equal, any other value (including `None`) compares unequal without error. -/
def pyEqStrJ (v : Json) (s : String) : Bool :=
  match v with
  | .str t => t == s
  | _ => false

def pyEqStr (v : Option Json) (s : String) : Bool :=
  match v with
  | some j => pyEqStrJ j s
  | none => false

/-- `query_pubmed_idconv(session, id_, email)` (parsepapers.py lines 125-157),
response processing: `rj = r.json()` (no `r.ok` check), then
`record = rj.get("records")[0]`, then a per-id `status == "error"` record is
turned into `None` (after reading `errmsg` for the diagnostic print), any
other record is returned. -/
def query_pubmed_idconv (r : HttpResponse) : Except PyErr (Option Json) := do
  let rj ← response_json r
  let records ← jget rj ("records")
  let record ← subscript_zero records
  let status ← jget record ("status")
  if pyEqStr status ("error") then do
    let _errmsg ← jget record ("errmsg")
    pure none
  else
    pure (some record)

/-- `query_doi_org(session, doi, useragent)` (parsepapers.py lines 240-262),
response processing: body returned if `r.ok` (parsed twice in the source,
for the print and for the return), `None` (implicit) otherwise. -/
def query_doi_org (r : HttpResponse) : Except PyErr (Option Json) :=
  if r.ok then do
    let _ ← response_json r
    let j ← response_json r
    pure (some j)
  else
    pure none

/-! ### `check_ratings` (parsepapers.py lines 181-216) -/

/-- Modelled from the spec: `meta_item_to_str` is called by `check_ratings`
when it prints its near-miss diagnostic, but no definition of it exists in
the source files under verification (only the two call sites).  Per the spec,
diagnostic messages for near-miss disambiguation decisions are informational
only, not control-flow signals, so it is modelled as a total rendering
function of the metadata item. -/
def meta_item_to_str (item : Json) : String :=
  match item with
  | .obj kvs =>
      match jlookup kvs ("title") with
      | some (.str t) => t
      | _ => ("<item>")
  | _ => ("<item>")

/-- The tail of `check_ratings` shared by its fall-through paths: the
preprint-versus-journal-article preference (lines 209-215) followed by
`return items[0]` (line 216).  `and` short-circuits left to right, so
`items[0].get("subtype")` is only read when the similarity test holds, and
`items[1].get("type")` only when the subtype test also holds. -/
def ratings_tail (x1 x2 : Json) (similarity almost : ℚ) : Except PyErr Json := do
  if almost ≤ similarity then
    let sub ← jget x1 ("subtype")
    if pyEqStr sub ("preprint") then
      let t2 ← jget x2 ("type")
      if pyEqStr t2 ("journal-article") then pure x2 else pure x1
    else
      pure x1
  else
    pure x1

/-- The generator expression `tuple(item["score"] for item in items)`: reads
every item's `"score"` in list order, raising on the first item without one. -/
def pyMapScores : List Json → Except PyErr (List Json)
  | [] => .ok []
  | it :: rest => do
      let s ← jbracket it ("score")
      let t ← pyMapScores rest
      .ok (s :: t)

/-- `check_ratings(items, close=0.75, almost=0.9)`:
`items[0]` on an empty list raises `IndexError`; a singleton is returned
as is; otherwise `scores = tuple(item["score"] for item in items)` reads every
item's score, `similarity = scores[1] / scores[0]`, and then: when
`similarity > close`, the diagnostic is printed and a `peer-review` top item
is discarded by recursing on `items[1:]`; in every non-recursing case control
falls through to the preprint preference and `return items[0]`. -/
def check_ratings (items : List Json) (close almost : ℚ) : Except PyErr Json :=
  match items with
  | [] => .error .indexError
  | [x] => .ok x
  | x1 :: x2 :: rest => do
      let s1 ← jbracket x1 ("score")
      let s2 ← jbracket x2 ("score")
      let _ ← pyMapScores rest
      let similarity ←
        match s2, s1 with
        | .num a, .num b => if b = 0 then .error .zeroDivisionError else .ok (a / b)
        | _, _ => .error .typeError
      if close < similarity then
        let _diag := (meta_item_to_str x1, meta_item_to_str x2)
        let t1 ← jbracket x1 ("type")
        if pyEqStrJ t1 ("peer-review") then
          check_ratings (x2 :: rest) close almost
        else
          ratings_tail x1 x2 similarity almost
      else
        ratings_tail x1 x2 similarity almost

/-- `check_ratings(items)` with the source's default thresholds 0.75, 0.9. -/
def check_ratings_default (items : List Json) : Except PyErr Json :=
  check_ratings items (3 / 4) (9 / 10)

/-- `query_crossref_bibliographic(session, citation, email)` (parsepapers.py
lines 219-237), response processing: on `r.ok`, extract
`r.json().get("message").get("items")` (chained `.get` raises
`AttributeError` when an intermediate value is `None` or not a dict), run
`check_ratings` on the item list (`len()`/indexing of a non-list raises
`TypeError`), return the best item; `None` (implicit) when not `r.ok`. -/
def query_crossref_bibliographic (r : HttpResponse) : Except PyErr (Option Json) := do
  if r.ok then
    let j ← response_json r
    let message ← jget j ("message")
    let items ←
      match message with
      | some m => jget m ("items")
      | none => .error .attributeError
    let itemsList ←
      match items with
      | some (.arr l) => (.ok l : Except PyErr (List Json))
      | _ => .error .typeError
    let best ← check_ratings_default itemsList
    pure (some best)
  else
    pure none

/-! ### `process_buffer` (read_input.py lines 47-64) -/

/-- `process_buffer(buf, n)`: a one-line entry stores the whole buffer (a
list!) as its citation; two- and three-line entries store the first line and
classify the remaining line(s) as url/comment by the `startswith("http")`
test; two URL-bearing lines or more than three lines raise `ValueError` (the
line number `n` only feeds the error message and is omitted here). -/
def process_buffer (buf : List String) : Except PyErr Entry :=
  match buf with
  | [c] => .ok ⟨.list [.str c], none, none⟩
  | [c, x] =>
      if x.startsWith ("http") then .ok ⟨.str c, some x, none⟩
      else .ok ⟨.str c, none, some x⟩
  | [c, x, y] =>
      if x.startsWith ("http") && !(y.startsWith ("http")) then .ok ⟨.str c, some x, some y⟩
      else if y.startsWith ("http") && !(x.startsWith ("http")) then .ok ⟨.str c, some y, some x⟩
      else .error .valueError
  | _ => .error .valueError

/-! ## Theorems about the embedded program -/

/-! ### Helper lemmas about the matcher -/

theorem lastChar_cons (prev : Option Char) (c : Char) (l : List Char) :
    lastChar prev (c :: l) = lastChar (some c) l := by
  cases l with
  | nil => rfl
  | cons d t =>
      simp only [lastChar, List.getLast?_cons_cons]
      cases h2 : (d :: t).getLast? with
      | none => exact absurd h2 (by simp)
      | some x => rfl

/-- `re.search` skips a prefix at which no match starts. -/
theorem reSearchAux_skip (r : RE) (p rest : List Char) (prev : Option Char)
    (h : ∀ i pv, i < p.length → mat r pv (List.drop i p ++ rest) = []) :
    reSearchAux r prev (p ++ rest) = reSearchAux r (lastChar prev p) rest := by
  induction p generalizing prev with
  | nil => simp [lastChar]
  | cons c p ih =>
      have h0 : mat r prev ((c :: p) ++ rest) = [] := by
        have := h 0 prev (by simp)
        simpa using this
      rw [List.cons_append, reSearchAux]
      rw [show (c :: (p ++ rest)) = ((c :: p) ++ rest) from rfl, h0]
      simp only [List.head?_nil]
      rw [lastChar_cons]
      exact ih (some c) (fun i pv hi => by
        have := h (i + 1) pv (by simpa using hi)
        simpa using this)

/-- The PMID pattern cannot match where its literal marker is not a prefix. -/
theorem mat_pmid_nil (l : List Char) (pv : Option Char)
    (h : (("PMID:").data.isPrefixOf l) = false) : mat pmidRE pv l = [] := by
  simp [pmidRE, mat, L, h]

theorem takeWhile_head_nil (f : Char → Bool) (b : List Char)
    (hb : ∀ c, b.head? = some c → f c = false) : b.takeWhile f = [] := by
  cases b with
  | nil => rfl
  | cons c t => simp [List.takeWhile_cons, hb c rfl]

theorem takeWhile_append_all (f : Char → Bool) (a b : List Char)
    (ha : ∀ c ∈ a, f c = true) (hb : ∀ c, b.head? = some c → f c = false) :
    (a ++ b).takeWhile f = a := by
  induction a with
  | nil => simpa using takeWhile_head_nil f b hb
  | cons c t ih =>
      have h1 : f c = true := ha c (by simp)
      simp [List.takeWhile_cons, h1, ih (fun x hx => ha x (by simp [hx]))]

theorem punct_nonspace (c : Char) (h : isPunctStop c = true) :
    CCls.nonspace.mem c = true := by
  simp only [isPunctStop, Bool.or_eq_true, beq_iff_eq] at h
  rcases h with (h | h) | h <;> subst h <;> rfl

/-- One backtracking step of a greedy `+` repetition: the longest candidate,
then the shorter ones. -/
theorem repResults_one_succ (l : List Char) (pv : Option Char) (n : Nat) :
    repResults l pv 1 (n + 1) =
      ⟨l.take (n + 1), l.drop (n + 1), lastChar pv (l.take (n + 1)), none⟩ ::
      repResults l pv 1 n := by
  simp [repResults]

/-- At the marker itself, the PMID pattern captures the whole greedy digit
run (here `12345678`, provided the following text starts with no digit). -/
theorem reSearchAux_pmid_marker (pv : Option Char) (s : List Char)
    (hs : List.takeWhile CCls.digit.mem s = []) :
    reSearchAux pmidRE pv (("PMID: 12345678").data ++ s) = some (("12345678").data) := by
  rw [show ("PMID: 12345678").data =
    ['P','M','I','D',':',' ','1','2','3','4','5','6','7','8'] from rfl]
  simp only [List.cons_append, List.nil_append]
  rw [reSearchAux]
  simp only [pmidRE, mat, L]
  simp [List.takeWhile_cons, CCls.mem, hs, repResults, lastChar, capOr]

/-- C7: the spec (and the source's own docstring) say the literal marker
`DOI:` introduces a DOI, but the compiled pattern only matches the lower-case
`doi:` / `doi.org/` markers and `re.search` is case-sensitive, so extraction
misses `DOI: 10.1000/xyz123` entirely while finding the same DOI after a
lower-case marker. -/
theorem find_id_doi_marker_case_sensitive :
    find_id (.str ("DOI: 10.1000/xyz123")) IdType.doi = .ok none ∧
    find_id (.str ("doi: 10.1000/xyz123")) IdType.doi = .ok (some ("10.1000/xyz123")) :=
  ⟨rfl, rfl⟩

/-- C9: `check_ratings` on a singleton candidate list returns the sole
candidate, and on an empty candidate list fails explicitly with `IndexError`
(from `items[0]`) instead of returning an absent result — for every choice of
thresholds. -/
theorem check_ratings_singleton_and_empty :
    (∀ (x : Json) (close almost : ℚ), check_ratings [x] close almost = .ok x) ∧
    (∀ (close almost : ℚ), check_ratings [] close almost = .error .indexError) :=
  ⟨fun _ _ _ => rfl, fun _ _ => rfl⟩

/-- C10: a one-line buffer yields an entry whose `citation` field is the
one-element list holding that line (with `url` and `comment` absent), while
two- and three-line buffers yield entries whose `citation` field is the first
line as a plain string — the runtime type of `citation` depends on the line
count. -/
theorem process_buffer_citation_shape :
    (∀ s : String, process_buffer [s] = .ok ⟨.list [.str s], none, none⟩) ∧
    (∀ c x : String, (process_buffer [c, x]).map Entry.citation = .ok (.str c)) ∧
    (∀ c x y : String,
      (process_buffer [c, x, y]).map Entry.citation = .ok (.str c) ∨
      (process_buffer [c, x, y]).map Entry.citation = .error .valueError) := by
  refine ⟨fun s => rfl, fun c x => ?_, fun c x y => ?_⟩
  · by_cases h : x.startsWith ("http") <;> simp [process_buffer, h, Except.map]
  · by_cases hx : x.startsWith ("http") <;> by_cases hy : y.startsWith ("http") <;>
      simp [process_buffer, hx, hy, Except.map]

/-- C4: the orchestrator's `if`/`elif` chain tries PMID, then PMCID, then
DOI; the first identifier present wins, the branches are mutually exclusive,
and in particular an entry bearing both a PMID and a DOI goes to
`query_pubmed_ctxp(..., "pubmed")` and never to `query_doi_org`. -/
theorem resolve_call_priority (ids : Identifiers) (e : Entry) :
    (∀ p, ids.pmid = some p →
      resolve_call ids e = .ctxp p ("pubmed") ∧ ∀ d, resolve_call ids e ≠ .doiOrg d) ∧
    (∀ c, ids.pmid = none → ids.pmcid = some c → resolve_call ids e = .ctxp c ("pmc")) ∧
    (∀ d, ids.pmid = none → ids.pmcid = none → ids.doi = some d →
      resolve_call ids e = .doiOrg d) := by
  refine ⟨fun p hp => ?_, fun c hp hc => ?_, fun d hp hc hd => ?_⟩
  · exact ⟨by simp [resolve_call, hp], by simp [resolve_call, hp]⟩
  · simp [resolve_call, hp, hc]
  · simp [resolve_call, hp, hc, hd]

/-- C4 witness: an identifier set carrying a DOI, a PMID and a PMCID resolves
through the PubMed `ctxp` branch with database `"pubmed"`. -/
theorem resolve_call_priority_witness :
    resolve_call ⟨some ("10.1/x"), some ("123"), some ("PMC9")⟩ ⟨.str ("c"), none, none⟩ =
      .ctxp ("123") ("pubmed") :=
  ((resolve_call_priority ⟨some ("10.1/x"), some ("123"), some ("PMC9")⟩
    ⟨.str ("c"), none, none⟩).1 ("123") rfl).1

/-- C2 counterexample: for a concrete identifier-less entry the fallback
branch passes the whole `Entry` (the citation/url/comment tuple) as the
`citation` argument of the bibliographic query, and the Python value of that
argument is not the entry's raw citation text (a string). -/
theorem bibliographic_query_gets_entry_not_text :
    resolve_call ⟨none, none, none⟩ ⟨.str ("Some citation"), some ("https://example.com/p"), none⟩ =
      .bibliographic ⟨.str ("Some citation"), some ("https://example.com/p"), none⟩ ∧
    pyOfEntry ⟨.str ("Some citation"), some ("https://example.com/p"), none⟩ ≠
      PyVal.str ("Some citation") :=
  ⟨rfl, by simp [pyOfEntry]⟩

/-- C2 amended: for every entry whose identifier set has no PMID, no PMCID
and no DOI, the orchestrator falls through to the bibliographic search,
passing the entire entry (not its citation text) as the query, with
`rows = 3` results requested in the payload. -/
theorem bibliographic_fallback (ids : Identifiers) (e : Entry) (email : String)
    (h1 : ids.pmid = none) (h2 : ids.pmcid = none) (h3 : ids.doi = none) :
    resolve_call ids e = .bibliographic e ∧
    (bib_query_payload (pyOfEntry e) email).query_bibliographic = pyOfEntry e ∧
    (bib_query_payload (pyOfEntry e) email).rows = 3 :=
  ⟨by simp [resolve_call, h1, h2, h3], rfl, rfl⟩

/-- C2 amended, witness at a concrete identifier-less entry. -/
theorem bibliographic_fallback_witness :
    resolve_call ⟨none, none, none⟩ ⟨.str ("T"), some ("https://example.com/q"), none⟩ =
      .bibliographic ⟨.str ("T"), some ("https://example.com/q"), none⟩ :=
  (bibliographic_fallback ⟨none, none, none⟩ ⟨.str ("T"), some ("https://example.com/q"), none⟩
    ("a@b.c") rfl rfl rfl).1

/-- C1: the registry-client functions do not all fail softly.
`query_pubmed_idconv` raises on transport failures — a non-success response
with a non-JSON body raises the JSON-decoding error, and one with a JSON body
lacking a `records` array raises `TypeError` from `rj.get("records")[0]` —
and `query_crossref_bibliographic` raises `IndexError` on the business-level
miss of an empty candidate list (via `check_ratings`'s `items[0]`), all of
which propagate to the caller instead of yielding `None`. -/
theorem registry_clients_raise_on_failures :
    query_pubmed_idconv ⟨false, none⟩ = .error .jsonError ∧
    query_pubmed_idconv ⟨false, some (.obj [])⟩ = .error .typeError ∧
    query_crossref_bibliographic ⟨true, some (.obj [(("message"), .obj [(("items"), .arr [])])])⟩ =
      .error .indexError :=
  ⟨rfl, rfl, rfl⟩

/-- C3: identifier extraction can fail.  For an entry whose citation text
matches no pattern and whose `url` is absent, `get_identifiers` raises
`TypeError` (from `re.search(pattern, None)` inside `id_from_url`), and for a
one-line entry — whose `citation` field is a list, not a string —
`find_id` itself raises `TypeError`, even when a `url` string is present. -/
theorem get_identifiers_raises :
    get_identifiers ⟨.str ("Some citation text"), none, none⟩ = .error .typeError ∧
    get_identifiers ⟨.list [.str ("One liner")], some ("https://example.com/a"), none⟩ =
      .error .typeError :=
  ⟨rfl, rfl⟩

/-- C8 counterexample: the citation text `PMID: 123456789` contains the
substring `PMID: 12345678`, yet extraction yields `123456789` — the greedy
digit run continues past the claimed identifier — so the extraction result is
not `12345678` regardless of surrounding text. -/
theorem find_id_pmid_not_context_free :
    (("PMID: 12345678").data.isPrefixOf ("PMID: 123456789").data) = true ∧
    find_id (.str ("PMID: 123456789")) IdType.pmid = .ok (some ("123456789")) ∧
    find_id (.str ("PMID: 123456789")) IdType.pmid ≠ .ok (some ("12345678")) := by
  refine ⟨rfl, rfl, fun h => ?_⟩
  rw [show find_id (.str ("PMID: 123456789")) IdType.pmid = .ok (some ("123456789")) from rfl] at h
  injection h with h2
  injection h2 with h3
  exact absurd (congrArg String.data h3) (by decide)

theorem except_bind_ok {α β : Type} (a : α) (f : α → Except PyErr β) :
    (Except.ok a >>= f) = f a := rfl

theorem except_pure_eq_ok {α : Type} (a : α) :
    (pure a : Except PyErr α) = Except.ok a := rfl

theorem pyMapScores_ok (rest : List Json)
    (hrest : ∀ j ∈ rest, ∃ q, jbracket j ("score") = .ok (Json.num q)) :
    ∃ l, pyMapScores rest = .ok l := by
  induction rest with
  | nil => exact ⟨[], rfl⟩
  | cons j t ih =>
      obtain ⟨q, hq⟩ := hrest j (by simp)
      obtain ⟨l, hl⟩ := ih (fun x hx => hrest x (by simp [hx]))
      refine ⟨Json.num q :: l, ?_⟩
      rw [pyMapScores]
      simp [hq, hl, except_bind_ok]

/-- The preprint-preference tail of `check_ratings`, expressed as one guard:
the short-circuiting `and` chain collapses to the conjunction once the two
`.get` reads are known. -/
theorem ratings_tail_eq (x1 x2 : Json) (sim almost : ℚ) (sub1 ty2 : Option Json)
    (hsub : jget x1 ("subtype") = .ok sub1) (hty2 : jget x2 ("type") = .ok ty2) :
    ratings_tail x1 x2 sim almost =
      if almost ≤ sim ∧ pyEqStr sub1 ("preprint") = true ∧ pyEqStr ty2 ("journal-article") = true
      then .ok x2 else .ok x1 := by
  unfold ratings_tail
  by_cases ha : almost ≤ sim
  · simp only [if_pos ha, hsub, hty2, except_bind_ok]
    by_cases hs : pyEqStr sub1 ("preprint") = true
    · simp only [if_pos hs, except_bind_ok]
      by_cases ht : pyEqStr ty2 ("journal-article") = true
      · simp [ht, ha, hs, except_pure_eq_ok]
      · simp [ht, ha, hs, except_pure_eq_ok]
    · simp [hs, except_pure_eq_ok]
  · simp [ha, except_pure_eq_ok]

/-- C5: for every candidate list with at least two items (whose scores are
numbers, the top score nonzero, and the top item carrying a `type` — all
guaranteed for the registry's candidate records), `check_ratings` computes
`similarity = score₂ / score₁` and then: if `similarity > close` and the top
item's type is `peer-review`, it discards the top item and recurses on the
rest (re-evaluating both thresholds against the new top-two pair there);
otherwise if `similarity ≥ almost`, the top item's subtype is `preprint` and
the second item's type is `journal-article`, it returns the second item;
otherwise it returns the top item.  The thresholds are parameters with
defaults 0.75 and 0.9 (`check_ratings_default`). -/
theorem check_ratings_branching (x1 x2 : Json) (rest : List Json)
    (close almost q1 q2 : ℚ) (t1 : Json) (sub1 ty2 : Option Json)
    (h1 : jbracket x1 ("score") = .ok (.num q1))
    (h2 : jbracket x2 ("score") = .ok (.num q2))
    (hrest : ∀ j ∈ rest, ∃ q, jbracket j ("score") = .ok (Json.num q))
    (hq1 : q1 ≠ 0)
    (ht1 : jbracket x1 ("type") = .ok t1)
    (hsub : jget x1 ("subtype") = .ok sub1)
    (hty2 : jget x2 ("type") = .ok ty2) :
    check_ratings (x1 :: x2 :: rest) close almost =
      if close < q2 / q1 ∧ pyEqStrJ t1 ("peer-review") = true then
        check_ratings (x2 :: rest) close almost
      else if almost ≤ q2 / q1 ∧ pyEqStr sub1 ("preprint") = true ∧
          pyEqStr ty2 ("journal-article") = true then
        .ok x2
      else .ok x1 := by
  obtain ⟨lrest, hl⟩ := pyMapScores_ok rest hrest
  rw [check_ratings]
  rw [h1, h2, hl]
  simp only [except_bind_ok, if_neg hq1]
  by_cases hc : close < q2 / q1
  · simp only [if_pos hc, ht1, except_bind_ok]
    by_cases hpr : pyEqStrJ t1 ("peer-review") = true
    · simp only [if_pos hpr]
      rw [if_pos ⟨hc, hpr⟩]
    · simp only [if_neg hpr]
      have hno : ¬(close < q2 / q1 ∧ pyEqStrJ t1 ("peer-review") = true) :=
        fun hand => hpr hand.2
      rw [if_neg hno, ratings_tail_eq x1 x2 (q2 / q1) almost sub1 ty2 hsub hty2]
  · simp only [if_neg hc]
    have hno : ¬(close < q2 / q1 ∧ pyEqStrJ t1 ("peer-review") = true) :=
      fun hand => hc hand.1
    rw [if_neg hno, ratings_tail_eq x1 x2 (q2 / q1) almost sub1 ty2 hsub hty2]

/-- C5 witness, the spec's own test case: scores `[100, 95]` with a
`peer-review` top item — the top item is discarded and resolving the
remaining singleton returns the second item. -/
theorem check_ratings_branching_witness :
    check_ratings
      [Json.obj [(("score"), Json.num 100), (("type"), Json.str ("peer-review"))],
       Json.obj [(("score"), Json.num 95), (("type"), Json.str ("journal-article"))]]
      (3 / 4) (9 / 10) =
      .ok (Json.obj [(("score"), Json.num 95), (("type"), Json.str ("journal-article"))]) := by
  rw [check_ratings_branching
      (Json.obj [(("score"), Json.num 100), (("type"), Json.str ("peer-review"))])
      (Json.obj [(("score"), Json.num 95), (("type"), Json.str ("journal-article"))])
      [] (3 / 4) (9 / 10) 100 95 (Json.str ("peer-review")) none
      (some (Json.str ("journal-article")))
      rfl rfl (by simp) (by norm_num) rfl rfl rfl]
  rw [if_pos ⟨by norm_num, rfl⟩]
  rfl

/-- C8 amended: for every citation text of the form `p ++ "PMID: 12345678" ++ s`
in which no occurrence of the marker `PMID:` starts inside `p` (no earlier
pattern match can begin) and `s` does not start with a digit (the greedy digit
run stops at the claimed identifier), PMID extraction yields `12345678`,
whatever else `p` and `s` contain. -/
theorem find_id_pmid_in_context (p s : List Char)
    (hp : ∀ i, i < p.length →
      (("PMID:").data.isPrefixOf (List.drop i p ++ (("PMID: 12345678").data ++ s))) = false)
    (hs : ∀ c, s.head? = some c → c.isDigit = false) :
    find_id (.str (String.mk (p ++ (("PMID: 12345678").data ++ s)))) IdType.pmid =
      .ok (some ("12345678")) := by
  have hs2 : List.takeWhile CCls.digit.mem s = [] :=
    takeWhile_head_nil _ s (fun c hc => by simpa [CCls.mem] using hs c hc)
  show (Except.ok ((reSearch pmidRE (p ++ (("PMID: 12345678").data ++ s))).map
      (fun l => String.mk l)) : Except PyErr (Option String)) = Except.ok (some ("12345678"))
  rw [reSearch, reSearchAux_skip pmidRE p _ none
    (fun i pv hi => mat_pmid_nil _ pv (by
      have := hp i hi
      simpa using this))]
  rw [reSearchAux_pmid_marker _ s hs2]
  rfl

/-- C8 amended, witness: `Author A. PMID: 12345678, J Neuro.` yields
`12345678`. -/
theorem find_id_pmid_in_context_witness :
    find_id (.str (String.mk (("Author A. ").data ++
      (("PMID: 12345678").data ++ (", J Neuro.").data)))) IdType.pmid =
      .ok (some ("12345678")) := by
  refine find_id_pmid_in_context (("Author A. ").data) ((", J Neuro.").data)
    (by decide) (fun c hc => ?_)
  rw [show ((", J Neuro.").data.head? : Option Char) = some (',') from rfl] at hc
  injection hc with h
  subst h
  rfl

/-- C6: for every DOI-bearing citation text `doi:10.<digits-dots>/<suffix><punct>`
whose non-whitespace suffix does not itself end in `.`/`,`/`;`, a trailing
period, comma or semicolon immediately after the DOI is excluded from the
captured value by the pattern's negative lookbehind, while such characters
inside the suffix are retained (the suffix `core` may contain them freely and
is captured verbatim). -/
theorem find_id_doi_trailing_punct (dd core tail : List Char) (p : Char)
    (hdd1 : dd ≠ []) (hdd2 : ∀ c ∈ dd, CCls.digitDot.mem c = true)
    (hcore1 : core ≠ []) (hcore2 : ∀ c ∈ core, CCls.nonspace.mem c = true)
    (hlast : ∀ c, core.getLast? = some c → isPunctStop c = false)
    (hp : isPunctStop p = true)
    (htail : ∀ c, tail.head? = some c → isPySpace c = true) :
    find_id (.str (String.mk (("doi:10.").data ++ (dd ++ (('/') :: (core ++ p :: tail))))))
      IdType.doi =
      .ok (some (String.mk (("10.").data ++ (dd ++ (('/') :: core))))) := by
  have hdd3 : List.takeWhile CCls.digitDot.mem (dd ++ (('/') :: (core ++ p :: tail))) = dd := by
    refine takeWhile_append_all _ dd _ hdd2 (fun c hc => ?_)
    simp only [List.head?_cons, Option.some.injEq] at hc
    subst hc
    rfl
  have hcp : List.takeWhile CCls.nonspace.mem (core ++ p :: tail) = core ++ [p] := by
    rw [show core ++ p :: tail = (core ++ [p]) ++ tail by simp]
    refine takeWhile_append_all _ _ tail (fun c hc => ?_) (fun c hc => ?_)
    · rcases List.mem_append.mp hc with h | h
      · exact hcore2 c h
      · simp only [List.mem_singleton] at h
        subst h
        exact punct_nonspace _ hp
    · simp only [CCls.mem, htail c hc, Bool.not_true]
  obtain ⟨d0, dd', hddc⟩ : ∃ d0 dd', dd = d0 :: dd' := by
    cases dd with
    | nil => exact absurd rfl hdd1
    | cons a b => exact ⟨a, b, rfl⟩
  obtain ⟨k, hk⟩ : ∃ k, core.length = k + 1 := by
    cases core with
    | nil => exact absurd rfl hcore1
    | cons a b => exact ⟨b.length, rfl⟩
  obtain ⟨c0, hc0⟩ : ∃ c, core.getLast? = some c := by
    cases hgl : core.getLast? with
    | none => exact absurd (List.getLast?_eq_none_iff.mp hgl) hcore1
    | some x => exact ⟨x, rfl⟩
  have hpunct0 : isPunctStop c0 = false := hlast c0 hc0
  have hddlen : dd.length = dd'.length + 1 := by rw [hddc]; rfl
  have htake_dd : (dd ++ (('/') :: (core ++ p :: tail))).take dd.length = dd :=
    List.take_left dd _
  have hdrop_dd : (dd ++ (('/') :: (core ++ p :: tail))).drop dd.length =
      ('/') :: (core ++ p :: tail) :=
    List.drop_left dd _
  have htake_cp : (core ++ p :: tail).take (core.length + 1) = core ++ [p] := by
    rw [show core ++ p :: tail = (core ++ [p]) ++ tail by simp,
      show core.length + 1 = (core ++ [p]).length by simp]
    exact List.take_left _ _
  have hdrop_cp : (core ++ p :: tail).drop (core.length + 1) = tail := by
    rw [show core ++ p :: tail = (core ++ [p]) ++ tail by simp,
      show core.length + 1 = (core ++ [p]).length by simp]
    exact List.drop_left _ _
  have htake_c : (core ++ p :: tail).take core.length = core := List.take_left core _
  have hdrop_c : (core ++ p :: tail).drop core.length = p :: tail := List.drop_left core _
  have hlast_cp : lastChar (some ('/')) (core ++ [p]) = some p := by
    simp [lastChar, List.getLast?_concat]
  have hlast_c : lastChar (some ('/')) core = some c0 := by
    simp [lastChar, hc0]
  have hrep2 : repResults (core ++ p :: tail) (some ('/')) 1 core.length =
      ⟨core, p :: tail, some c0, none⟩ :: repResults (core ++ p :: tail) (some ('/')) 1 k := by
    rw [hk, repResults_one_succ, ← hk]
    rw [htake_c, hdrop_c, hlast_c]
  have hrep1 : ∀ pv : Option Char,
      repResults (dd ++ (('/') :: (core ++ p :: tail))) pv 1 dd.length =
      ⟨dd, ('/') :: (core ++ p :: tail), lastChar pv dd, none⟩ ::
        repResults (dd ++ (('/') :: (core ++ p :: tail))) pv 1 dd'.length := by
    intro pv
    rw [hddlen, repResults_one_succ, ← hddlen]
    rw [htake_dd, hdrop_dd]
  show (Except.ok ((reSearch doiRE (("doi:10.").data ++
      (dd ++ (('/') :: (core ++ p :: tail))))).map
      (fun l => String.mk l)) : Except PyErr (Option String)) =
    Except.ok (some (String.mk (("10.").data ++ (dd ++ (('/') :: core)))))
  rw [show ("doi:10.").data = ['d','o','i',':','1','0','.'] from rfl]
  simp only [List.cons_append, List.nil_append]
  rw [reSearch, reSearchAux]
  simp only [doiRE, mat, L]
  simp [hdd3, hcp, hrep1, hrep2, repResults_one_succ, htake_cp, hdrop_cp,
    hlast_cp, hlast_c, hp, hpunct0, capOr, lastChar, hc0]

/-- C6 witness, the spec's own example: `doi:10.1000/xyz123.` yields
`10.1000/xyz123`, not `10.1000/xyz123.`. -/
theorem find_id_doi_trailing_punct_witness :
    find_id (.str (String.mk (("doi:10.").data ++
      ((("1000").data) ++ (('/') :: ((("xyz123").data) ++ ('.') :: ([] : List Char)))))))
      IdType.doi =
      .ok (some (String.mk (("10.").data ++ ((("1000").data) ++ (('/') :: ("xyz123").data))))) := by
  refine find_id_doi_trailing_punct (("1000").data) (("xyz123").data) [] ('.')
    (by decide) (by decide) (by decide) (by decide) (fun c hc => ?_) (by decide) (fun c hc => ?_)
  · rw [show ((("xyz123").data).getLast? : Option Char) = some ('3') from rfl] at hc
    injection hc with h
    subst h
    rfl
  · rw [show (([] : List Char).head? : Option Char) = none from rfl] at hc
    cases hc

end PubParser
